import Mathlib

/-!
Shallow embedding of the quiz-scoring and AI-fallback logic of the
aru-academy backend (files `backend/quizzes/service.py`,
`backend/ai/routes.py`, `backend/ai/huggingface_provider.py`).

Modelling conventions:
* Python strings are `List Char` (named `Str`); `str.lower`, `str.strip`
  and no-argument `str.split` are defined below with Python semantics.
* Python float arithmetic on scores is modelled with `ℚ`; the literal
  `0.5` becomes `1/2` and the similarity threshold `0.7` becomes `7/10`.
* Database state is a record of quiz and submission lists; a transaction
  rollback is modelled by returning the input state unchanged.
* Outbound HTTP traffic is an environment parameter: each request is
  answered by a caller-supplied `HFResult` value.
-/

set_option maxRecDepth 100000

namespace AruAcademy

/-- Python strings, modelled as lists of characters. -/
abbrev Str := List Char

/-- `str.lower`: character-wise lowercasing. -/
def lowerStr (s : Str) : Str := s.map Char.toLower

/-- Whitespace test used by `str.strip` and `str.split`. -/
def isSpace (c : Char) : Bool := c.isWhitespace

/-- `str.strip` with no argument: remove leading and trailing whitespace. -/
def stripStr (s : Str) : Str :=
  ((s.dropWhile isSpace).reverse.dropWhile isSpace).reverse

/-- Helper for `pySplit`: accumulates the current word in reverse. -/
def wordsAux : Str → Str → List Str
  | [], acc => if acc.isEmpty then [] else [acc.reverse]
  | c :: cs, acc =>
    if isSpace c then
      if acc.isEmpty then wordsAux cs [] else acc.reverse :: wordsAux cs []
    else
      wordsAux cs (c :: acc)

/-- `str.split` with no argument: whitespace-separated words, empty chunks
dropped. -/
def pySplit (s : Str) : List Str := wordsAux s []

/-- The lowercase whitespace-split token set of a text, as built by
`_calculate_similarity` via `set(text.lower().split())`. -/
def tokenSet (s : Str) : Finset Str := (pySplit (lowerStr s)).toFinset

/-- `QuizService._calculate_similarity` from `backend/quizzes/service.py`. -/
def calculate_similarity (text1 text2 : Str) : ℚ :=
  let words1 := tokenSet text1
  let words2 := tokenSet text2
  if words1 = ∅ ∧ words2 = ∅ then 1
  else if words1 = ∅ ∨ words2 = ∅ then 0
  else ((words1 ∩ words2).card : ℚ) / ((words1 ∪ words2).card : ℚ)

/-- Question kinds, from `models/quiz.py` (`QuestionType`). -/
inductive QuestionType where
  | multiple_choice
  | short_answer
deriving DecidableEq, Repr, Inhabited

/-- A quiz question row, from `models/quiz.py` (`QuizQuestion`). -/
structure QuizQuestion where
  id : Nat
  question_type : QuestionType
  question : Str
  options : Option (List Str)
  answer : Str
  explanation : Str
  points : Int
deriving DecidableEq, Repr

/-- A quiz row together with its questions, from `models/quiz.py`. -/
structure Quiz where
  id : Nat
  title : Str
  course_id : Nat
  topic : Str
  questions : List QuizQuestion
deriving DecidableEq, Repr

/-- A submission row, from `models/quiz.py` (`QuizSubmission`).  The
`score` and `max_score` float columns are modelled as `ℚ`. -/
structure QuizSubmission where
  quiz_id : Nat
  user_id : Nat
  score : ℚ
  max_score : ℚ
  answers : List (Str × Str)
deriving DecidableEq, Repr

/-- Python dictionary lookup on the submitted-answers mapping
(`question_id in answers` / `answers[question_id]`). -/
def lookupAnswer : List (Str × Str) → Str → Option Str
  | [], _ => none
  | (k, v) :: rest, key => if k = key then some v else lookupAnswer rest key

/-- `str(question.id)`, the dictionary key used by `submit_quiz`. -/
def natKey (n : Nat) : Str := (toString n).toList

/-- Score contribution of one question in the `submit_quiz` loop
(`service.py` lines 183-197): unanswered questions contribute 0;
multiple-choice questions are compared by exact string equality;
short-answer questions get full points on normalized equality, half
points when the similarity exceeds 7/10, and 0 otherwise. -/
def questionScore (answers : List (Str × Str)) (q : QuizQuestion) : ℚ :=
  match lookupAnswer answers (natKey q.id) with
  | none => 0
  | some user_answer =>
    match q.question_type with
    | .multiple_choice =>
      if user_answer = q.answer then (q.points : ℚ) else 0
    | .short_answer =>
      if stripStr (lowerStr user_answer) = stripStr (lowerStr q.answer) then
        (q.points : ℚ)
      else if calculate_similarity user_answer q.answer > 7/10 then
        (q.points : ℚ) * (1/2)
      else 0

/-- The score/max-score accumulation loop of `submit_quiz`
(`service.py` lines 178-197). -/
def scoreLoop (answers : List (Str × Str)) (questions : List QuizQuestion) :
    ℚ × ℚ :=
  questions.foldl
    (fun acc q => (acc.1 + questionScore answers q, acc.2 + (q.points : ℚ)))
    (0, 0)

/-- The database state visible to `QuizService.submit_quiz`. -/
structure DBState where
  quizzes : List Quiz
  submissions : List QuizSubmission
deriving DecidableEq, Repr

/-- `Quiz.query.get(quiz_id)` over the modelled state. -/
def findQuiz (st : DBState) (quiz_id : Nat) : Option Quiz :=
  st.quizzes.find? (fun q => q.id == quiz_id)

/-- `QuizSubmission.query.filter_by(quiz_id=..., user_id=...).first()`. -/
def findSubmission (st : DBState) (quiz_id user_id : Nat) :
    Option QuizSubmission :=
  st.submissions.find? (fun s => s.quiz_id == quiz_id && s.user_id == user_id)

/-- `QuizService.submit_quiz` (`service.py` lines 161-216).  A raised
`ValueError` becomes `Except.error` with the message text; the rolled-back
transaction leaves the returned state equal to the input state. -/
def submit_quiz (st : DBState) (user_id quiz_id : Nat)
    (answers : List (Str × Str)) : Except Str QuizSubmission × DBState :=
  match findQuiz st quiz_id with
  | none => (.error "Quiz not found".toList, st)
  | some quiz =>
    match findSubmission st quiz_id user_id with
    | some _ => (.error "Quiz already submitted".toList, st)
    | none =>
      let scores := scoreLoop answers quiz.questions
      let submission : QuizSubmission :=
        { quiz_id := quiz_id
          user_id := user_id
          score := scores.1
          max_score := scores.2
          answers := answers }
      (.ok submission,
        { st with submissions := st.submissions ++ [submission] })

/-- The Jaccard similarity exactly as the specification words it:
intersection size over union size of the whitespace-split lowercase token
sets, with no special cases. -/
def jaccardSimilarity (t1 t2 : Str) : ℚ :=
  ((tokenSet t1 ∩ tokenSet t2).card : ℚ) / ((tokenSet t1 ∪ tokenSet t2).card : ℚ)

/-- Outcome of one outbound HTTP request, supplied by the environment.
For a JSON body, `body = some texts` models a JSON list whose entries
carry the shown `generated_text` values (absent fields defaulted to the
empty string by `.get`), and `body = none` models a non-list JSON value.
The remaining constructors model the exception branches of the provider
(`requests.exceptions.Timeout`, `requests.exceptions.RequestException`,
any other `Exception`). -/
inductive HFResult where
  | httpResp (status : Nat) (body : Option (List Str))
  | timeout
  | requestError
  | otherError
deriving DecidableEq, Repr

/-- Python substring test `sub in s`. -/
def containsSub : Str → Str → Bool
  | [], sub => sub.isEmpty
  | s@(_ :: t), sub => sub.isPrefixOf s || containsSub t sub

/-- Python `s.split(delim)` for a non-empty delimiter. -/
def pySplitOnSub (s delim : Str) : List Str :=
  ((String.mk s).splitOn (String.mk delim)).map String.toList

/-- Python `s.replace(old, new)`. -/
def pyReplace (s old new : Str) : Str :=
  ((String.mk s).replace (String.mk old) (String.mk new)).toList

namespace HuggingFaceProvider

/-- The answer post-processing applied to `generated_text` inside
`HuggingFaceProvider.ask_question` and `_try_fallback_models`
(`huggingface_provider.py` lines 85-102 and 200-215): cut the text after
the last turn marker, then erase remaining markers and strip. -/
def extractAnswer (raw : Str) : Str :=
  let answer :=
    if containsSub raw "<start_of_turn>model".toList then
      stripStr ((pySplitOnSub raw "<start_of_turn>model".toList).getLastD [])
    else if containsSub raw "Assistant:".toList then
      stripStr ((pySplitOnSub raw "Assistant:".toList).getLastD [])
    else if containsSub raw "Human:".toList then
      let parts := pySplitOnSub raw "Human:".toList
      if parts.length > 1 then stripStr (parts.getLastD []) else raw
    else raw
  stripStr
    (pyReplace (pyReplace answer "<end_of_turn>".toList [])
      "<start_of_turn>".toList [])

/-- `HuggingFaceProvider._try_fallback_models`
(`huggingface_provider.py` lines 164-235): walk the fallback endpoint
responses in order; only a 200 response whose body is a non-empty JSON
list returns success, every other outcome moves on to the next endpoint;
when the list is exhausted the provider reports
`"AI service temporarily unavailable"`. -/
def try_fallback_models : List HFResult → Bool × Str
  | [] => (false, "AI service temporarily unavailable".toList)
  | r :: rs =>
    match r with
    | .httpResp status body =>
      if status = 200 then
        match body with
        | some (t :: _) => (true, extractAnswer t)
        | _ => try_fallback_models rs
      else try_fallback_models rs
    | _ => try_fallback_models rs

/-- The attempt loop of `HuggingFaceProvider.ask_question`
(`huggingface_provider.py` lines 44-158).  The list argument holds the
environment response to each successive primary-endpoint attempt (the
source makes exactly two); an empty remainder after a retryable outcome
corresponds to `attempt == 1`, the last attempt. -/
def askQuestionLoop (fallbacks : List HFResult) : List HFResult → Bool × Str
  | [] => (false, "AI temporarily unavailable".toList)
  | r :: rest =>
    match r with
    | .httpResp status body =>
      if status = 200 then
        match body with
        | some (t :: _) => (true, extractAnswer t)
        | _ => (false, "AI temporarily unavailable".toList)
      else if status = 503 then
        if rest.isEmpty then
          (false, "AI model is loading, please try again in a moment".toList)
        else askQuestionLoop fallbacks rest
      else if status = 429 then
        if rest.isEmpty then
          (false,
            "AI service is temporarily busy, please try again in a few moments".toList)
        else askQuestionLoop fallbacks rest
      else if status = 404 then
        try_fallback_models fallbacks
      else (false, "AI temporarily unavailable".toList)
    | .timeout =>
      if rest.isEmpty then (false, "AI temporarily unavailable".toList)
      else askQuestionLoop fallbacks rest
    | .requestError =>
      if rest.isEmpty then (false, "AI temporarily unavailable".toList)
      else askQuestionLoop fallbacks rest
    | .otherError =>
      if rest.isEmpty then (false, "AI temporarily unavailable".toList)
      else askQuestionLoop fallbacks rest

/-- `HuggingFaceProvider.ask_question` restricted to its success flag and
message (the returned processing time is wall-clock and not modelled):
two primary-endpoint attempts answered by `primary`, fallback endpoints
answered by `fallbacks`. -/
def ask_question (primary : List HFResult) (fallbacks : List HFResult) :
    Bool × Str :=
  askQuestionLoop fallbacks primary

/-- A fallback-endpoint outcome that `_try_fallback_models` accepts:
a 200 response whose JSON body is a non-empty list. -/
def fallbackSucceeds : HFResult → Bool
  | .httpResp status body =>
    status == 200 &&
      (match body with
        | some (_ :: _) => true
        | _ => false)
  | _ => false

end HuggingFaceProvider

namespace AiRoutes

/-- The keyword buckets tested by `get_enhanced_fallback_response`
(`backend/ai/routes.py` lines 25-41), in source order. -/
def explainKeywords : List Str :=
  ["explain", "what is", "define", "meaning"].map String.toList

/-- Keywords of the examples bucket. -/
def exampleKeywords : List Str :=
  ["example", "examples", "show me"].map String.toList

/-- Keywords of the how-to bucket. -/
def howtoKeywords : List Str :=
  ["how to", "how do", "steps", "process"].map String.toList

/-- Keywords of the stuck/confused bucket. -/
def stuckKeywords : List Str :=
  ["help", "stuck", "confused", "difficult"].map String.toList

/-- Keywords of the math bucket. -/
def mathKeywords : List Str :=
  ["math", "mathematics", "calculate", "formula"].map String.toList

/-- `any(word in question_lower for word in keywords)`. -/
def anyKeyword (keywords : List Str) (question_lower : Str) : Bool :=
  keywords.any (fun w => containsSub question_lower w)

/-- Canned text from `get_enhanced_fallback_response` in `backend/ai/routes.py`. -/
def fallbackContextResponse : Str :=
  "I\u0027d be happy to help with your question! 🤔 While I\u0027m currently experiencing some technical difficulties, I can see you\u0027re working with course material. Here\u0027s how to get the help you need:\n\n📚 **From Your Course Material:**\n• Review the relevant sections in your textbook or course notes\n• Look for examples and practice problems related to your question\n• Check if there are study guides or summaries available\n\n🔍 **Specific to Your Question:**\n• Break down your question into smaller parts\n• Look for key terms and concepts in your course materials\n• Try to find similar examples or case studies\n\n👥 **Get Additional Help:**\n• Ask your instructor during office hours\n• Join study groups with classmates\n• Use online resources like Khan Academy or educational YouTube channels\n\n💡 **Study Tip:** Try rephrasing your question or explaining what you already know about the topic - this often helps clarify what specific help you need!\n\nI\u0027ll be back online soon to provide more personalized assistance! 💪".toList

/-- Canned text from `get_enhanced_fallback_response` in `backend/ai/routes.py`. -/
def fallbackExplainResponse : Str :=
  "I\u0027d be happy to explain that concept! 🤔 While I\u0027m currently experiencing some technical difficulties, here are some excellent ways to get the explanation you need:\n\n📚 **Study Resources:**\n• Check your course materials and textbooks\n• Look for online tutorials and educational videos\n• Review lecture notes and presentations\n\n👥 **Get Help:**\n• Ask your instructor or classmates for clarification\n• Use the course discussion forums\n• Join study groups\n\n🔍 **Online Resources:**\n• Khan Academy, Coursera, or edX\n• YouTube educational channels\n• Academic websites and journals\n\n💡 **Study Tip:** Try to break down complex concepts into smaller parts and look for real-world examples!\n\nI\u0027ll be back online soon to provide more detailed explanations! 💪".toList

/-- Canned text from `get_enhanced_fallback_response` in `backend/ai/routes.py`. -/
def fallbackExampleResponse : Str :=
  "Great question! 📝 Here are some effective ways to find examples:\n\n📖 **Course Materials:**\n• Review your course materials for sample problems\n• Check the practice exercises in your textbook\n• Look at past assignments and their solutions\n\n👨‍🏫 **Ask Your Instructor:**\n• Request additional examples during office hours\n• Ask for clarification on complex topics\n• Request practice problems\n\n🌐 **Online Resources:**\n• Search for examples on educational websites\n• Look for similar problems on forums\n• Check solution manuals (if available)\n\nI\u0027m working on getting back online to provide specific examples! 🚀".toList

/-- Canned text from `get_enhanced_fallback_response` in `backend/ai/routes.py`. -/
def fallbackHowToResponse : Str :=
  "I can help you with that process! 🛠️ Here\u0027s a systematic approach:\n\n📋 **Step-by-Step Method:**\n1. **Break down** the problem into smaller, manageable steps\n2. **Review** the relevant concepts and formulas\n3. **Work through** each step systematically\n4. **Check your work** at each stage\n5. **Practice** with similar problems\n\n💡 **Pro Tips:**\n• Start with simpler versions of the problem\n• Use diagrams or visual aids when helpful\n• Don\u0027t rush - take your time with each step\n• Ask for help if you get stuck on any step\n\n📚 **Additional Resources:**\n• Check your course materials for detailed procedures\n• Ask your instructor for step-by-step guidance\n• Look for video tutorials online\n\nI\u0027ll be back online soon to provide detailed step-by-step solutions! ⚡".toList

/-- Canned text from `get_enhanced_fallback_response` in `backend/ai/routes.py`. -/
def fallbackStuckResponse : Str :=
  "I understand you\u0027re feeling stuck! 🤗 Don\u0027t worry - this is a normal part of learning. Here are some strategies that can help:\n\n🧠 **Learning Strategies:**\n• Take a break and come back with fresh eyes\n• Review the fundamental concepts first\n• Try working through a simpler version of the problem\n• Practice with easier problems to build confidence\n\n👥 **Get Support:**\n• Ask for help from your instructor or study group\n• Use online resources and tutorials\n• Join study groups or peer tutoring\n• Visit your school\u0027s learning center\n\n💪 **Stay Motivated:**\n• Remember that struggling is part of learning\n• Celebrate small victories and progress\n• Don\u0027t be afraid to ask questions\n• Keep a positive mindset\n\nI\u0027m here to support your learning journey and will be back online soon! 🌟".toList

/-- Canned text from `get_enhanced_fallback_response` in `backend/ai/routes.py`. -/
def fallbackMathResponse : Str :=
  "Math questions are great! 🧮 While I\u0027m temporarily offline, here are some excellent resources for mathematical help:\n\n📐 **Math Resources:**\n• Wolfram Alpha for calculations and step-by-step solutions\n• Khan Academy for video explanations\n• Mathway for problem-solving\n• Your textbook\u0027s examples and practice problems\n\n📚 **Study Tips:**\n• Practice regularly with similar problems\n• Understand the underlying concepts, not just procedures\n• Use visual aids and diagrams when helpful\n• Work through problems step by step\n\n👨‍🏫 **Get Help:**\n• Ask your math instructor for clarification\n• Join a math study group\n• Use online math forums and communities\n\nI\u0027ll be back online soon to help with your math questions! 🔢".toList

/-- Canned text from `get_enhanced_fallback_response` in `backend/ai/routes.py`. -/
def fallbackGenericResponse : Str :=
  "That\u0027s an interesting question! 🤔 While I\u0027m currently experiencing some technical difficulties, here are some excellent ways to get the help you need:\n\n📚 **Academic Resources:**\n• Check your course materials and resources\n• Review your notes and textbook\n• Use your school\u0027s library and online databases\n\n👥 **Human Support:**\n• Ask your instructor or teaching assistant\n• Collaborate with classmates in study groups\n• Visit your school\u0027s learning center or tutoring services\n\n🌐 **Online Learning:**\n• Use educational websites and platforms\n• Search for relevant tutorials and guides\n• Join online study communities\n\n💡 **Study Strategies:**\n• Break complex topics into smaller parts\n• Use active learning techniques\n• Practice regularly and consistently\n\nI\u0027m working on getting back online to provide more personalized assistance. Thank you for your patience! 🚀".toList

/-- `get_enhanced_fallback_response` (`backend/ai/routes.py` lines
16-41): with a non-empty context the context text is returned, otherwise
the first keyword bucket whose word occurs in the lowercased question
selects the canned text, defaulting to the generic text. -/
def get_enhanced_fallback_response (question context : Str) : Str :=
  let question_lower := lowerStr question
  if !context.isEmpty then fallbackContextResponse
  else if anyKeyword explainKeywords question_lower then fallbackExplainResponse
  else if anyKeyword exampleKeywords question_lower then fallbackExampleResponse
  else if anyKeyword howtoKeywords question_lower then fallbackHowToResponse
  else if anyKeyword stuckKeywords question_lower then fallbackStuckResponse
  else if anyKeyword mathKeywords question_lower then fallbackMathResponse
  else fallbackGenericResponse

/-- Outcome of the `hf_provider.ask_question` call as seen by the `/ask`
route: either the returned `(success, answer)` pair or a raised
exception.  The provider internals are modelled separately; at the route
boundary the call outcome is an environment parameter. -/
inductive ProviderCall where
  | outcome (success : Bool) (answer : Str)
  | raises
deriving DecidableEq, Repr

/-- HTTP result of the `/ask` route: a 400 for a missing question, a 200
carrying the answer, or a 500 carrying the error text; the last two also
record the success flag written to the `AiCallLog` row. -/
inductive AskRouteResult where
  | badRequest (error : Str)
  | answered (answer : Str) (loggedSuccess : Bool)
  | failed (error : Str) (loggedSuccess : Bool)
deriving DecidableEq, Repr

/-- The `/ask` route handler `ask_question` (`backend/ai/routes.py`
lines 187-274).  `context` is the (truncated) resource text already
looked up; `tokenConfigured` is the truthiness of `HF_API_TOKEN`. -/
def ask_question (question context : Str) (tokenConfigured : Bool)
    (call : ProviderCall) : AskRouteResult :=
  if question.isEmpty then .badRequest "Question is required".toList
  else
    let result :=
      if !tokenConfigured then
        (true, get_enhanced_fallback_response question context)
      else
        match call with
        | .outcome true answer => (true, answer)
        | .outcome false _ =>
          (true, get_enhanced_fallback_response question context)
        | .raises => (true, get_enhanced_fallback_response question context)
    if result.1 then .answered result.2 result.1
    else .failed result.2 result.1

/-- Shape of one question dict produced by the `/generate-questions`
route.  A template question (fallback path) carries the fields built by
`get_fallback_quiz_questions`: `question`, `type`, `explanation`, plus
`options`/`correct_answer` index for multiple choice or a
`correct_answer` text for short answer. -/
structure FBQuestion where
  question : Str
  type : QuestionType
  options : Option (List Str)
  correct_answer_index : Option Nat
  correct_answer_text : Option Str
  explanation : Str
deriving DecidableEq, Repr, Inhabited

/-- The fixed template list of `get_fallback_quiz_questions`
(`backend/ai/routes.py` lines 48-151), parameterized by the topic;
it holds 11 templates alternating multiple-choice and short-answer. -/
def question_templates (topic : Str) : List FBQuestion := [
  { question := "What is the primary purpose of ".toList ++ topic ++ "?".toList,
    type := QuestionType.multiple_choice,
    options := some [
      "To provide a comprehensive understanding of ".toList ++ topic ++ "".toList,
      "To solve complex problems in ".toList ++ topic ++ "".toList,
      "To establish fundamental principles in ".toList ++ topic ++ "".toList,
      "To advance research in ".toList ++ topic ++ "".toList],
    correct_answer_index := some 0,
    correct_answer_text := none,
    explanation := "This question tests your understanding of the fundamental purpose and goals of ".toList ++ topic ++ ".".toList },
  { question := "Explain the main concept behind ".toList ++ topic ++ " in your own words.".toList,
    type := QuestionType.short_answer,
    options := none,
    correct_answer_index := none,
    correct_answer_text := some ("The main concept of ".toList ++ topic ++ " involves understanding its fundamental principles, practical applications, and how it relates to solving real-world problems. It encompasses both theoretical knowledge and practical skills needed to work effectively with ".toList ++ topic ++ ".".toList),
    explanation := "This question evaluates your ability to explain ".toList ++ topic ++ " concepts clearly and demonstrate understanding beyond memorization.".toList },
  { question := "Which of the following is a key characteristic of ".toList ++ topic ++ "?".toList,
    type := QuestionType.multiple_choice,
    options := some [
      "Systematic approach to ".toList ++ topic ++ "".toList,
      "Practical application of ".toList ++ topic ++ "".toList,
      "Theoretical foundation of ".toList ++ topic ++ "".toList,
      "All of the above".toList],
    correct_answer_index := some 3,
    correct_answer_text := none,
    explanation := "This question evaluates your knowledge of the essential characteristics that define ".toList ++ topic ++ ".".toList },
  { question := "Describe how ".toList ++ topic ++ " is used in real-world applications. Provide specific examples.".toList,
    type := QuestionType.short_answer,
    options := none,
    correct_answer_index := none,
    correct_answer_text := some ("".toList ++ topic ++ " is widely used in various industries and applications. For example, it can be applied in business for problem-solving and decision-making, in technology for system design and optimization, in education for curriculum development, and in research for data analysis and innovation. The practical applications demonstrate its versatility and importance in modern society.".toList),
    explanation := "This question tests your ability to connect theoretical knowledge of ".toList ++ topic ++ " with practical, real-world applications and provide concrete examples.".toList },
  { question := "What are the main benefits of studying ".toList ++ topic ++ "?".toList,
    type := QuestionType.multiple_choice,
    options := some [
      "Improved problem-solving skills".toList,
      "Enhanced analytical thinking".toList,
      "Better understanding of complex systems".toList,
      "All of the above".toList],
    correct_answer_index := some 3,
    correct_answer_text := none,
    explanation := "This question tests your awareness of the value and benefits that come from learning ".toList ++ topic ++ ".".toList },
  { question := "Explain why understanding the fundamentals of ".toList ++ topic ++ " is important for success.".toList,
    type := QuestionType.short_answer,
    options := none,
    correct_answer_index := none,
    correct_answer_text := some ("Understanding the fundamentals of ".toList ++ topic ++ " is crucial because it provides the foundation for advanced learning, enables problem-solving in new situations, helps in making informed decisions, and allows for creative application of knowledge. Without solid fundamentals, it\u0027s difficult to build expertise or adapt to new challenges in the field.".toList),
    explanation := "This question evaluates your understanding of why foundational knowledge is essential for mastery and success in ".toList ++ topic ++ ".".toList },
  { question := "What is the most important factor to consider when working with ".toList ++ topic ++ "?".toList,
    type := QuestionType.multiple_choice,
    options := some [
      "Speed and efficiency".toList,
      "Accuracy and precision".toList,
      "Cost and resources".toList,
      "All factors are equally important".toList],
    correct_answer_index := some 1,
    correct_answer_text := none,
    explanation := "This question tests your understanding of the critical aspects that make ".toList ++ topic ++ " effective and reliable.".toList },
  { question := "Compare and contrast ".toList ++ topic ++ " with other related fields. What makes it unique?".toList,
    type := QuestionType.short_answer,
    options := none,
    correct_answer_index := none,
    correct_answer_text := some ("".toList ++ topic ++ " is unique because it combines theoretical knowledge with practical application in ways that other fields may not. While related fields might focus on specific aspects, ".toList ++ topic ++ " provides a comprehensive approach that integrates multiple perspectives. Its uniqueness lies in its ability to bridge theory and practice, offering both analytical depth and real-world relevance.".toList),
    explanation := "This question tests your ability to analyze and compare ".toList ++ topic ++ " with related fields, demonstrating understanding of its distinctive characteristics and value.".toList },
  { question := "What is the biggest challenge students typically face when learning ".toList ++ topic ++ "?".toList,
    type := QuestionType.multiple_choice,
    options := some [
      "Understanding the basic concepts".toList,
      "Applying knowledge to practical problems".toList,
      "Memorizing all the details".toList,
      "Keeping up with the pace of instruction".toList],
    correct_answer_index := some 1,
    correct_answer_text := none,
    explanation := "This question tests your awareness of common learning challenges and the importance of practical application in ".toList ++ topic ++ ".".toList },
  { question := "Describe the future potential and trends in ".toList ++ topic ++ ". What developments do you expect?".toList,
    type := QuestionType.short_answer,
    options := none,
    correct_answer_index := none,
    correct_answer_text := some ("The future of ".toList ++ topic ++ " looks promising with several key trends emerging: increased integration with technology, greater emphasis on practical applications, more interdisciplinary approaches, and continuous evolution to meet changing needs. I expect developments in automation, digital tools, and new methodologies that will make ".toList ++ topic ++ " more accessible and effective for learners and practitioners.".toList),
    explanation := "This question evaluates your ability to think critically about the future direction of ".toList ++ topic ++ " and demonstrate understanding of current trends and potential developments.".toList },
  { question := "What role does critical thinking play in ".toList ++ topic ++ "?".toList,
    type := QuestionType.multiple_choice,
    options := some [
      "Critical thinking is optional in ".toList ++ topic ++ "".toList,
      "Critical thinking is essential for success in ".toList ++ topic ++ "".toList,
      "Critical thinking only applies to advanced ".toList ++ topic ++ "".toList,
      "Critical thinking is more important in other subjects".toList],
    correct_answer_index := some 1,
    correct_answer_text := none,
    explanation := "This question evaluates your understanding of the importance of analytical and critical thinking skills in mastering ".toList ++ topic ++ ".".toList }]

/-- `get_fallback_quiz_questions` (`backend/ai/routes.py` lines 43-178):
produce `num_questions` questions cycling through the template list; a
repeated template (index at least the list length) gets a
`Question N: ` prefix.  Building the per-question dict from the template
copies exactly the fields present on the template, so it is the
(possibly prefixed) template itself. -/
def get_fallback_quiz_questions (topic : Str) (num_questions : Nat) :
    List FBQuestion :=
  (List.range num_questions).map (fun i =>
    let templates := question_templates topic
    let template := templates.getD (i % templates.length) default
    if i ≥ templates.length then
      { template with
          question :=
            ("Question " ++ toString (i + 1) ++ ": ").toList
              ++ template.question }
    else template)

/-- A question dict returned by the provider quiz generation, passed
through unmodified by the route (field shape validated by
`HuggingFaceProvider._validate_question`). -/
structure AiQuestion where
  question : Str
  type : Str
  options : Option (List Str)
  answer : Str
  explanation : Str
deriving DecidableEq, Repr

/-- Outcome of the `hf_provider.generate_quiz_questions` call as seen by
the `/generate-questions` route. -/
inductive QGenOutcome where
  | outcome (success : Bool) (questions : List AiQuestion)
  | raises
deriving DecidableEq, Repr

/-- The questions carried by a `/generate-questions` response: either the
provider list passed through, or template questions. -/
inductive GenQuestions where
  | fromProvider (qs : List AiQuestion)
  | fromTemplates (qs : List FBQuestion)
deriving DecidableEq, Repr

/-- Number of questions in a `/generate-questions` response payload. -/
def questionCount : GenQuestions → Nat
  | .fromProvider qs => qs.length
  | .fromTemplates qs => qs.length

/-- HTTP result of the `/generate-questions` route. -/
inductive GenRouteResult where
  | badRequest (error : Str)
  | ok (questions : GenQuestions) (loggedSuccess : Bool)
  | failed (error : Str) (loggedSuccess : Bool)
deriving DecidableEq, Repr

/-- The `num_questions` validation of `generate_quiz_questions`
(`backend/ai/routes.py` lines 290-294): default 5, and any value outside
`1..10` silently replaced by 5. -/
def effectiveNumQuestions (numQ : Option Int) : Int :=
  let num_questions := numQ.getD 5
  if ¬(1 ≤ num_questions ∧ num_questions ≤ 10) then 5 else num_questions

/-- The `/generate-questions` route handler `generate_quiz_questions`
(`backend/ai/routes.py` lines 276-374). -/
def generate_quiz_questions (topic : Str) (numQ : Option Int)
    (tokenConfigured : Bool) (call : QGenOutcome) : GenRouteResult :=
  if topic.isEmpty then .badRequest "Topic is required".toList
  else
    let num_questions := effectiveNumQuestions numQ
    let result :=
      if !tokenConfigured then
        (true,
          GenQuestions.fromTemplates
            (get_fallback_quiz_questions topic num_questions.toNat))
      else
        match call with
        | .outcome true questions => (true, GenQuestions.fromProvider questions)
        | .outcome false _ =>
          (true,
            GenQuestions.fromTemplates
              (get_fallback_quiz_questions topic num_questions.toNat))
        | .raises =>
          (true,
            GenQuestions.fromTemplates
              (get_fallback_quiz_questions topic num_questions.toNat))
    if result.1 && questionCount result.2 != 0 then .ok result.2 result.1
    else .failed "Failed to generate questions".toList result.1

end AiRoutes

/-! Concrete instances used to evaluate the verified statements. -/

/-- A short-answer question: the worked example of the specification
(`correct = "Paris is the capital"`). -/
def parisQ : QuizQuestion :=
  { id := 1, question_type := .short_answer, question := [],
    options := none, answer := "Paris is the capital".toList,
    explanation := [], points := 1 }

/-- The submitted answer of the worked example. -/
def parisAnswers : List (Str × Str) :=
  [("1".toList, "The capital is Paris".toList)]

/-- A short-answer question answered up to case and surrounding blanks. -/
def w1Q : QuizQuestion :=
  { id := 1, question_type := .short_answer, question := [],
    options := none, answer := "Paris".toList,
    explanation := [], points := 2 }

/-- Submitted answers matching `w1Q` after normalization. -/
def w1Answers : List (Str × Str) := [("1".toList, " PARIS ".toList)]

/-- A multiple-choice question with answer `B`. -/
def mcQ : QuizQuestion :=
  { id := 1, question_type := .multiple_choice, question := [],
    options := some ["A".toList, "B".toList], answer := "B".toList,
    explanation := [], points := 3 }

/-- Submitted answers matching `mcQ` exactly. -/
def mcAnswers : List (Str × Str) := [("1".toList, "B".toList)]

/-- A quiz with no questions, for exercising the duplicate check. -/
def quizW3 : Quiz :=
  { id := 1, title := [], course_id := 1, topic := [], questions := [] }

/-- State holding `quizW3` and no submissions. -/
def stW3 : DBState := { quizzes := [quizW3], submissions := [] }

/-- Answers submitted against `quizW3`. -/
def aW3 : List (Str × Str) := [("1".toList, "A".toList)]

/-- The submission created by the first `submit_quiz` call on `stW3`. -/
def subW3 : QuizSubmission :=
  { quiz_id := 1, user_id := 5,
    score := (scoreLoop aW3 quizW3.questions).1,
    max_score := (scoreLoop aW3 quizW3.questions).2,
    answers := aW3 }

/-- The state after the first `submit_quiz` call on `stW3`. -/
def stW3' : DBState := { quizzes := [quizW3], submissions := [subW3] }

/-- A state with no quizzes at all. -/
def stEmpty : DBState := { quizzes := [], submissions := [] }

/-- A quiz with one 3-point and one 4-point question. -/
def quizC6 : Quiz :=
  { id := 1, title := [], course_id := 1, topic := [],
    questions := [
      { id := 1, question_type := .multiple_choice, question := [],
        options := some [], answer := "A".toList, explanation := [],
        points := 3 },
      { id := 2, question_type := .short_answer, question := [],
        options := none, answer := "paris".toList, explanation := [],
        points := 4 }] }

/-- State holding `quizC6` and no submissions. -/
def stC6 : DBState := { quizzes := [quizC6], submissions := [] }

/-- The submission created by `submit_quiz` on `stC6` with no answers. -/
def subC6 : QuizSubmission :=
  { quiz_id := 1, user_id := 5,
    score := (scoreLoop [] quizC6.questions).1,
    max_score := (scoreLoop [] quizC6.questions).2,
    answers := [] }

/-- The state after submitting `quizC6` with no answers. -/
def stC6' : DBState := { quizzes := [quizC6], submissions := [subC6] }

/-- A quiz whose single question carries a negative point value; nothing
in `create_quiz` or the quiz routes validates the `points` field. -/
def negQuiz : Quiz :=
  { id := 1, title := [], course_id := 1, topic := [],
    questions := [
      { id := 1, question_type := .multiple_choice, question := [],
        options := some [], answer := "A".toList, explanation := [],
        points := -1 }] }

/-- State holding the negative-point quiz. -/
def negSt : DBState := { quizzes := [negQuiz], submissions := [] }

/-- A correct answer to the negative-point question. -/
def negAnswers : List (Str × Str) := [("1".toList, "A".toList)]

/-- The submission created for the negative-point quiz. -/
def negSub : QuizSubmission :=
  { quiz_id := 1, user_id := 7,
    score := (scoreLoop negAnswers negQuiz.questions).1,
    max_score := (scoreLoop negAnswers negQuiz.questions).2,
    answers := negAnswers }

/-- A quiz holding `mcQ`, for the score-bounds witness. -/
def quizC9 : Quiz :=
  { id := 1, title := [], course_id := 1, topic := [],
    questions := [mcQ] }

/-- State holding `quizC9`, for the score-bounds witness. -/
def stC9 : DBState := { quizzes := [quizC9], submissions := [] }

/-- The submission created on `stC9` from `mcAnswers`. -/
def subC9 : QuizSubmission :=
  { quiz_id := 1, user_id := 5,
    score := (scoreLoop mcAnswers [mcQ]).1,
    max_score := (scoreLoop mcAnswers [mcQ]).2,
    answers := mcAnswers }

/-- The state after submitting `quizC9` with `mcAnswers`. -/
def stC9' : DBState := { quizzes := [quizC9], submissions := [subC9] }

/-- Eleven provider-generated questions, more than the route will ever
request from the template fallback. -/
def elevenAiQs : List AiRoutes.AiQuestion :=
  List.replicate 11
    { question := "Q".toList, type := "multiple_choice".toList,
      options := some [], answer := "A".toList, explanation := [] }

/-! Helper lemmas about the string primitives. -/

theorem wordsAux_eq_nil (s : Str) :
    ∀ acc, wordsAux s acc = [] ↔ (∀ c ∈ s, isSpace c) ∧ acc = [] := by
  induction s with
  | nil =>
    intro acc
    cases acc <;> simp [wordsAux]
  | cons c cs ih =>
    intro acc
    by_cases hc : isSpace c
    · cases acc with
      | nil => simp [wordsAux, hc, ih]
      | cons a as => simp [wordsAux, hc]
    · have hrw : wordsAux (c :: cs) acc = wordsAux cs (c :: acc) := by
        simp [wordsAux, hc]
      rw [hrw, ih]
      simp [hc]

theorem pySplit_eq_nil (s : Str) :
    pySplit s = [] ↔ ∀ c ∈ s, isSpace c := by
  rw [pySplit, wordsAux_eq_nil]
  simp

theorem stripStr_eq_nil (s : Str) :
    stripStr s = [] ↔ ∀ c ∈ s, isSpace c := by
  rw [stripStr]
  simp only [List.reverse_eq_nil_iff, List.dropWhile_eq_nil_iff,
    List.mem_reverse]
  constructor
  · intro h c hc
    rw [← List.takeWhile_append_dropWhile isSpace s] at hc
    rcases List.mem_append.mp hc with h1 | h2
    · exact List.mem_takeWhile_imp h1
    · exact h c h2
  · intro h c hc
    exact h c ((List.dropWhile_sublist isSpace).subset hc)

theorem tokenSet_eq_empty (s : Str) :
    tokenSet s = ∅ ↔ stripStr (lowerStr s) = [] := by
  rw [tokenSet, List.toFinset_eq_empty_iff, pySplit_eq_nil, stripStr_eq_nil]

theorem calculate_similarity_eq_jaccard (t1 t2 : Str)
    (h : ¬(tokenSet t1 = ∅ ∧ tokenSet t2 = ∅)) :
    calculate_similarity t1 t2 = jaccardSimilarity t1 t2 := by
  rw [calculate_similarity, jaccardSimilarity]
  rw [if_neg h]
  by_cases h2 : tokenSet t1 = ∅ ∨ tokenSet t2 = ∅
  · rw [if_pos h2]
    rcases h2 with h2 | h2 <;> rw [h2] <;> simp
  · rw [if_neg h2]

/-- C1: for every short-answer question with point value p and a
submitted answer present in the answers mapping, the score contribution
is p when the texts are equal after lowercasing and trimming, 1/2 times
p when the Jaccard similarity (intersection size over union size of the
whitespace-split lowercase token sets) is strictly greater than 7/10,
and 0 otherwise. -/
theorem shortAnswer_scoring (answers : List (Str × Str)) (q : QuizQuestion)
    (ua : Str) (hty : q.question_type = .short_answer)
    (hlk : lookupAnswer answers (natKey q.id) = some ua) :
    questionScore answers q =
      if stripStr (lowerStr ua) = stripStr (lowerStr q.answer) then
        (q.points : ℚ)
      else if jaccardSimilarity ua q.answer > 7/10 then
        (1/2) * (q.points : ℚ)
      else 0 := by
  simp only [questionScore, hlk, hty]
  by_cases h1 : stripStr (lowerStr ua) = stripStr (lowerStr q.answer)
  · rw [if_pos h1, if_pos h1]
  · rw [if_neg h1, if_neg h1]
    have hne : ¬(tokenSet ua = ∅ ∧ tokenSet q.answer = ∅) := by
      rintro ⟨e1, e2⟩
      exact h1 (by
        rw [(tokenSet_eq_empty ua).mp e1, (tokenSet_eq_empty q.answer).mp e2])
    rw [calculate_similarity_eq_jaccard ua q.answer hne]
    by_cases h2 : jaccardSimilarity ua q.answer > 7/10
    · rw [if_pos h2, if_pos h2, mul_comm]
    · rw [if_neg h2, if_neg h2]

/-- C1 witness: a 2-point short-answer question answered up to case and
surrounding blanks scores the full 2 points. -/
theorem shortAnswer_scoring_witness : questionScore w1Answers w1Q = 2 := by
  rw [shortAnswer_scoring w1Answers w1Q " PARIS ".toList rfl (by decide)]
  rw [if_pos (by decide)]
  norm_num [w1Q]

theorem paris_jaccard :
    jaccardSimilarity "The capital is Paris".toList
      "Paris is the capital".toList = 1 := by
  rw [jaccardSimilarity]
  rw [show (tokenSet "The capital is Paris".toList ∩
      tokenSet "Paris is the capital".toList).card = 4 from by decide]
  rw [show (tokenSet "The capital is Paris".toList ∪
      tokenSet "Paris is the capital".toList).card = 4 from by decide]
  norm_num

theorem paris_score : questionScore parisAnswers parisQ = 1/2 := by
  rw [questionScore]
  rw [show lookupAnswer parisAnswers (natKey parisQ.id)
      = some "The capital is Paris".toList from by decide]
  show (if _ = _ then _
    else if calculate_similarity _ _ > 7/10 then _ else _) = _
  rw [if_neg (by decide)]
  rw [show calculate_similarity "The capital is Paris".toList parisQ.answer
      = 1 from by
    rw [calculate_similarity]
    rw [if_neg (by decide), if_neg (by decide)]
    rw [show (tokenSet "The capital is Paris".toList ∩
        tokenSet parisQ.answer).card = 4 from by decide]
    rw [show (tokenSet "The capital is Paris".toList ∪
        tokenSet parisQ.answer).card = 4 from by decide]
    norm_num]
  rw [if_pos (by norm_num)]
  show (parisQ.points : ℚ) * (1/2) = 1/2
  norm_num [parisQ]

/-- C2 counterexample: on the worked example of the specification
(correct text `Paris is the capital`, submitted text
`The capital is Paris`) the Jaccard similarity is 1, yet the score
contribution is NOT the full point value of the question. -/
theorem paris_example_not_full_credit :
    jaccardSimilarity "The capital is Paris".toList
        "Paris is the capital".toList = 1
      ∧ questionScore parisAnswers parisQ ≠ (parisQ.points : ℚ) := by
  refine ⟨paris_jaccard, ?_⟩
  rw [paris_score]
  norm_num [parisQ]

/-- C2 amended: on the worked example the Jaccard similarity is 1 and
the question receives half credit, 1/2 times its point value, because
the similarity branch always awards 50 percent. -/
theorem paris_example_half_credit :
    jaccardSimilarity "The capital is Paris".toList
        "Paris is the capital".toList = 1
      ∧ questionScore parisAnswers parisQ = (1/2) * (parisQ.points : ℚ) := by
  refine ⟨paris_jaccard, ?_⟩
  rw [paris_score]
  norm_num [parisQ]

theorem find?_append_none {α : Type} (p : α → Bool) (l1 l2 : List α)
    (h : l1.find? p = none) : (l1 ++ l2).find? p = l2.find? p := by
  induction l1 with
  | nil => simp
  | cons a l ih =>
    cases ha : p a with
    | true =>
      rw [List.find?_cons_of_pos _ ha] at h
      exact absurd h (by simp)
    | false =>
      have ha' : ¬p a = true := by simp [ha]
      rw [List.find?_cons_of_neg _ ha'] at h
      rw [List.cons_append, List.find?_cons_of_neg _ ha']
      exact ih h

theorem scoreLoop_foldl (answers : List (Str × Str))
    (qs : List QuizQuestion) (init : ℚ × ℚ) :
    qs.foldl
        (fun acc q => (acc.1 + questionScore answers q, acc.2 + (q.points : ℚ)))
        init
      = (init.1 + (qs.map (questionScore answers)).sum,
          init.2 + (qs.map (fun q => (q.points : ℚ))).sum) := by
  induction qs generalizing init with
  | nil => simp
  | cons q qs ih =>
    rw [List.foldl_cons, ih]
    simp [add_assoc]

theorem scoreLoop_eq (answers : List (Str × Str))
    (qs : List QuizQuestion) :
    scoreLoop answers qs
      = ((qs.map (questionScore answers)).sum,
          (qs.map (fun q => (q.points : ℚ))).sum) := by
  rw [scoreLoop, scoreLoop_foldl]
  simp

theorem questionScore_nonneg (answers : List (Str × Str))
    (q : QuizQuestion) (h : 0 ≤ q.points) :
    0 ≤ questionScore answers q := by
  have hq : (0:ℚ) ≤ (q.points : ℚ) := by exact_mod_cast h
  cases hlk : lookupAnswer answers (natKey q.id) with
  | none => simp [questionScore, hlk]
  | some ua =>
    cases hqt : q.question_type with
    | multiple_choice =>
      simp only [questionScore, hlk, hqt]
      split_ifs <;> simp [hq]
    | short_answer =>
      simp only [questionScore, hlk, hqt]
      split_ifs <;> nlinarith [hq]

theorem questionScore_le_points (answers : List (Str × Str))
    (q : QuizQuestion) (h : 0 ≤ q.points) :
    questionScore answers q ≤ (q.points : ℚ) := by
  have hq : (0:ℚ) ≤ (q.points : ℚ) := by exact_mod_cast h
  cases hlk : lookupAnswer answers (natKey q.id) with
  | none => simp [questionScore, hlk, hq]
  | some ua =>
    cases hqt : q.question_type with
    | multiple_choice =>
      simp only [questionScore, hlk, hqt]
      split_ifs <;> simp [hq]
    | short_answer =>
      simp only [questionScore, hlk, hqt]
      split_ifs <;> nlinarith [hq]

/-- C3: once a submission for a (user, quiz) pair is stored, a second
`submit_quiz` call for that pair fails with `Quiz already submitted` and
leaves the state unchanged, with the first submission still present; and
a `submit_quiz` call for a quiz id with no stored quiz fails with
`Quiz not found` and leaves the state unchanged. -/
theorem submit_quiz_reject (st : DBState) (uid qid : Nat)
    (a1 a2 : List (Str × Str)) (sub : QuizSubmission) (st' : DBState) :
    (submit_quiz st uid qid a1 = (.ok sub, st') →
      submit_quiz st' uid qid a2
          = (.error "Quiz already submitted".toList, st')
        ∧ sub ∈ st'.submissions)
    ∧ (findQuiz st qid = none →
        submit_quiz st uid qid a1 = (.error "Quiz not found".toList, st)) := by
  constructor
  · intro hok
    cases hq : findQuiz st qid with
    | none =>
      simp only [submit_quiz, hq] at hok
      exact absurd hok (by simp)
    | some quiz =>
      cases hs : findSubmission st qid uid with
      | some s =>
        simp only [submit_quiz, hq, hs] at hok
        exact absurd hok (by simp)
      | none =>
        simp only [submit_quiz, hq, hs, Prod.mk.injEq, Except.ok.injEq] at hok
        obtain ⟨hsub, hst⟩ := hok
        have hqid : sub.quiz_id = qid := by rw [← hsub]
        have huid : sub.user_id = uid := by rw [← hsub]
        rw [hsub] at hst
        subst hst
        constructor
        · have hq' : findQuiz
              { st with submissions := st.submissions ++ [sub] } qid
                = some quiz := hq
          have hs' : findSubmission
              { st with submissions := st.submissions ++ [sub] } qid uid
                = some sub := by
            show (st.submissions ++ [sub]).find?
                (fun s => s.quiz_id == qid && s.user_id == uid) = some sub
            rw [find?_append_none _ _ _ hs]
            simp [List.find?, hqid, huid]
          simp only [submit_quiz, hq', hs']
        · simp
  · intro hnone
    simp [submit_quiz, hnone]

/-- C3 witness: after submitting the concrete quiz once, the second
submission is rejected with the state unchanged, and an unknown quiz id
is rejected as not found. -/
theorem submit_quiz_reject_witness :
    (submit_quiz stW3' 5 1 []
          = (.error "Quiz already submitted".toList, stW3')
        ∧ subW3 ∈ stW3'.submissions)
      ∧ submit_quiz stEmpty 5 1 aW3
          = (.error "Quiz not found".toList, stEmpty) :=
  ⟨(submit_quiz_reject stW3 5 1 aW3 [] subW3 stW3').1 rfl,
    (submit_quiz_reject stEmpty 5 1 aW3 [] subW3 stW3').2 rfl⟩

/-- C6: whenever `submit_quiz` succeeds, the `max_score` of the created
submission is the sum of the point values of all the questions of the
quiz, independently of the submitted answers mapping; the score is the
sum of the per-question contributions, and a question whose id is absent
from the answers mapping contributes 0 to it while its points still
enter `max_score` through the full sum. -/
theorem submit_quiz_max_score (st : DBState) (uid qid : Nat)
    (answers : List (Str × Str)) (quiz : Quiz) (sub : QuizSubmission)
    (st' : DBState) (hq : findQuiz st qid = some quiz)
    (hres : submit_quiz st uid qid answers = (.ok sub, st')) :
    sub.max_score = (quiz.questions.map (fun q => (q.points : ℚ))).sum
      ∧ sub.score = (quiz.questions.map (questionScore answers)).sum
      ∧ ∀ q ∈ quiz.questions,
          lookupAnswer answers (natKey q.id) = none →
            questionScore answers q = 0 := by
  cases hs : findSubmission st qid uid with
  | some s =>
    simp only [submit_quiz, hq, hs] at hres
    exact absurd hres (by simp)
  | none =>
    simp only [submit_quiz, hq, hs, Prod.mk.injEq, Except.ok.injEq] at hres
    obtain ⟨hsub, hst⟩ := hres
    refine ⟨?_, ?_, ?_⟩
    · rw [← hsub, scoreLoop_eq]
    · rw [← hsub, scoreLoop_eq]
    · intro q hqmem hnone
      simp [questionScore, hnone]

/-- C6 witness: the empty answers mapping against a quiz with a 3-point
and a 4-point question yields a submission whose max score is the sum of
the two point values, whose score is the sum of the contributions, and
every question of that quiz is unanswered and contributes 0. -/
theorem submit_quiz_max_score_witness :
    (subC6.max_score = (quizC6.questions.map (fun q => (q.points : ℚ))).sum
        ∧ subC6.score = (quizC6.questions.map (questionScore [])).sum
        ∧ ∀ q ∈ quizC6.questions,
            lookupAnswer [] (natKey q.id) = none →
              questionScore [] q = 0)
      ∧ subC6.max_score = 7 ∧ subC6.score = 0 := by
  refine ⟨submit_quiz_max_score stC6 5 1 [] quizC6 subC6 stC6' rfl rfl,
    ?_, ?_⟩
  · show (scoreLoop [] quizC6.questions).2 = 7
    rw [scoreLoop_eq]
    simp [quizC6]
    norm_num
  · show (scoreLoop [] quizC6.questions).1 = 0
    rw [scoreLoop_eq]
    simp [quizC6, questionScore, lookupAnswer]

/-- C7: for every multiple-choice question with a submitted answer, the
score contribution is the full point value exactly when the submitted
string equals the stored answer string, with no normalization, and 0
otherwise. -/
theorem multiple_choice_scoring (answers : List (Str × Str))
    (q : QuizQuestion) (ua : Str)
    (hty : q.question_type = .multiple_choice)
    (hlk : lookupAnswer answers (natKey q.id) = some ua) :
    questionScore answers q = if ua = q.answer then (q.points : ℚ) else 0 := by
  simp only [questionScore, hlk, hty]

/-- C7 witness: an exactly matching multiple-choice answer on a 3-point
question scores 3. -/
theorem multiple_choice_scoring_witness : questionScore mcAnswers mcQ = 3 := by
  rw [multiple_choice_scoring mcAnswers mcQ "B".toList rfl (by decide)]
  rw [if_pos (by decide)]
  norm_num [mcQ]

/-- C9 counterexample: nothing validates the `points` column, and on a
quiz whose single question carries -1 points a correct answer produces a
stored submission with score -1, violating `0 <= score`. -/
theorem negative_points_break_bounds :
    (submit_quiz negSt 7 1 negAnswers).1 = .ok negSub
      ∧ negSub.score = -1 ∧ negSub.max_score = -1
      ∧ ¬(0 ≤ negSub.score) := by
  have hlk : lookupAnswer negAnswers (natKey 1) = some "A".toList := by
    decide
  have hscore : negSub.score = -1 := by
    show (scoreLoop negAnswers negQuiz.questions).1 = -1
    rw [scoreLoop_eq]
    simp only [negQuiz, List.map_cons, List.map_nil, List.sum_cons,
      List.sum_nil, questionScore, hlk]
    norm_num
  refine ⟨rfl, hscore, ?_, ?_⟩
  · show (scoreLoop negAnswers negQuiz.questions).2 = -1
    rw [scoreLoop_eq]
    simp [negQuiz]
  · rw [hscore]
    norm_num

/-- C9 amended: provided every question of every stored quiz has a
nonnegative point value, every submission created by `submit_quiz`
satisfies `0 <= score` and `score <= max_score`. -/
theorem submission_score_bounds (st : DBState) (uid qid : Nat)
    (answers : List (Str × Str)) (sub : QuizSubmission) (st' : DBState)
    (hpts : ∀ quiz ∈ st.quizzes, ∀ q ∈ quiz.questions, 0 ≤ q.points)
    (hres : submit_quiz st uid qid answers = (.ok sub, st')) :
    0 ≤ sub.score ∧ sub.score ≤ sub.max_score := by
  cases hq : findQuiz st qid with
  | none =>
    simp only [submit_quiz, hq] at hres
    exact absurd hres (by simp)
  | some quiz =>
    cases hs : findSubmission st qid uid with
    | some s =>
      simp only [submit_quiz, hq, hs] at hres
      exact absurd hres (by simp)
    | none =>
      simp only [submit_quiz, hq, hs, Prod.mk.injEq, Except.ok.injEq] at hres
      obtain ⟨hsub, hst⟩ := hres
      have hquiz : quiz ∈ st.quizzes := List.mem_of_find?_eq_some hq
      have hq0 := hpts quiz hquiz
      constructor
      · rw [← hsub]
        show 0 ≤ (scoreLoop answers quiz.questions).1
        rw [scoreLoop_eq]
        refine List.sum_nonneg ?_
        intro x hx
        obtain ⟨q, hqmem, hqeq⟩ := List.mem_map.mp hx
        rw [← hqeq]
        exact questionScore_nonneg answers q (hq0 q hqmem)
      · rw [← hsub]
        show (scoreLoop answers quiz.questions).1
          ≤ (scoreLoop answers quiz.questions).2
        rw [scoreLoop_eq]
        exact List.sum_le_sum
          (fun q hqmem => questionScore_le_points answers q (hq0 q hqmem))

/-- C9 witness: the bounds hold on a one-question nonnegative quiz. -/
theorem submission_score_bounds_witness :
    0 ≤ subC9.score ∧ subC9.score ≤ subC9.max_score :=
  submission_score_bounds stC9 5 1 mcAnswers subC9 stC9' (by decide) rfl

theorem try_fallback_models_all_fail (l : List HFResult)
    (h : ∀ r ∈ l, HuggingFaceProvider.fallbackSucceeds r = false) :
    HuggingFaceProvider.try_fallback_models l
      = (false, "AI service temporarily unavailable".toList) := by
  induction l with
  | nil => rfl
  | cons r rs ih =>
    have hr := h r (List.mem_cons_self r rs)
    have hrest := fun x hx => h x (List.mem_cons_of_mem r hx)
    cases r with
    | httpResp status body =>
      by_cases h200 : status = 200
      · subst h200
        cases body with
        | none =>
          simp only [HuggingFaceProvider.try_fallback_models, if_pos rfl]
          exact ih hrest
        | some l2 =>
          cases l2 with
          | nil =>
            simp only [HuggingFaceProvider.try_fallback_models, if_pos rfl]
            exact ih hrest
          | cons t ts =>
            exact absurd hr (by simp [HuggingFaceProvider.fallbackSucceeds])
      · simp only [HuggingFaceProvider.try_fallback_models, if_neg h200]
        exact ih hrest
    | timeout =>
      simp only [HuggingFaceProvider.try_fallback_models]
      exact ih hrest
    | requestError =>
      simp only [HuggingFaceProvider.try_fallback_models]
      exact ih hrest
    | otherError =>
      simp only [HuggingFaceProvider.try_fallback_models]
      exact ih hrest

/-- C4 counterexample: when the primary endpoint answers 404 on both
attempts and every fallback endpoint answers 404 (all non-200/503), the
provider returns success false with the message
`AI service temporarily unavailable`, which differs from the claimed
`AI temporarily unavailable`. -/
theorem all_404_gives_service_unavailable :
    HuggingFaceProvider.ask_question
        [.httpResp 404 none, .httpResp 404 none]
        (List.replicate 5 (HFResult.httpResp 404 none))
      = (false, "AI service temporarily unavailable".toList)
    ∧ "AI service temporarily unavailable".toList
        ≠ "AI temporarily unavailable".toList := by
  constructor
  · decide
  · decide

/-- C4 amended: the provider returns success false with message
`AI temporarily unavailable` when the first primary response status is
none of 200, 503, 404 and 429; when the first primary response is a 404
and every fallback endpoint fails, it returns success false with message
`AI service temporarily unavailable`. -/
theorem ask_question_failure_messages (s : Nat) (b : Option (List Str))
    (r2 : HFResult) (fallbacks : List HFResult) :
    (s ≠ 200 → s ≠ 503 → s ≠ 404 → s ≠ 429 →
      HuggingFaceProvider.ask_question [.httpResp s b, r2] fallbacks
        = (false, "AI temporarily unavailable".toList))
    ∧ ((∀ r ∈ fallbacks, HuggingFaceProvider.fallbackSucceeds r = false) →
      HuggingFaceProvider.ask_question [.httpResp 404 b, r2] fallbacks
        = (false, "AI service temporarily unavailable".toList)) := by
  constructor
  · intro h200 h503 h404 h429
    simp only [HuggingFaceProvider.ask_question,
      HuggingFaceProvider.askQuestionLoop]
    rw [if_neg h200, if_neg h503, if_neg h429, if_neg h404]
  · intro hfb
    simp only [HuggingFaceProvider.ask_question,
      HuggingFaceProvider.askQuestionLoop]
    rw [if_neg (by decide : ¬(404 = 200)),
      if_neg (by decide : ¬(404 = 503)),
      if_neg (by decide : ¬(404 = 429)), if_pos trivial]
    exact try_fallback_models_all_fail fallbacks hfb

/-- C4 witness: a 500 primary response yields
`AI temporarily unavailable`; a 404 primary response with five failing
fallbacks yields `AI service temporarily unavailable`. -/
theorem ask_question_failure_messages_witness :
    HuggingFaceProvider.ask_question
        [.httpResp 500 none, .httpResp 500 none] []
      = (false, "AI temporarily unavailable".toList)
    ∧ HuggingFaceProvider.ask_question
        [.httpResp 404 none, .httpResp 404 none]
        (List.replicate 5 (HFResult.httpResp 404 none))
      = (false, "AI service temporarily unavailable".toList) :=
  ⟨(ask_question_failure_messages 500 none (.httpResp 500 none) []).1
      (by decide) (by decide) (by decide) (by decide),
    (ask_question_failure_messages 404 none (.httpResp 404 none)
      (List.replicate 5 (HFResult.httpResp 404 none))).2 (by decide)⟩

/-- C5: when the token is configured and the provider call fails
(returns success false or raises), the `/ask` route answers 200 with the
keyword-bucketed canned response and logs the call as successful;
moreover the route can never produce the error (500) outcome, and with
no resource context the canned response is always one of the six static
bucket texts. -/
theorem ask_route_absorbs_failure (question context : Str)
    (call : AiRoutes.ProviderCall) (hq : question ≠ [])
    (hfail : call = .raises ∨ ∃ a, call = .outcome false a) :
    AiRoutes.ask_question question context true call
        = .answered (AiRoutes.get_enhanced_fallback_response question context)
            true
      ∧ (∀ (tc : Bool) (c : AiRoutes.ProviderCall) (e : Str) (s : Bool),
          AiRoutes.ask_question question context tc c ≠ .failed e s)
      ∧ AiRoutes.get_enhanced_fallback_response question []
          ∈ [AiRoutes.fallbackExplainResponse,
              AiRoutes.fallbackExampleResponse,
              AiRoutes.fallbackHowToResponse, AiRoutes.fallbackStuckResponse,
              AiRoutes.fallbackMathResponse,
              AiRoutes.fallbackGenericResponse] := by
  have hqe : question.isEmpty = false := by
    cases question with
    | nil => exact absurd rfl hq
    | cons a l => rfl
  refine ⟨?_, ?_, ?_⟩
  · rcases hfail with h | ⟨a, h⟩ <;> subst h <;>
      simp [AiRoutes.ask_question, hqe]
  · intro tc c e s
    cases tc <;> rcases c with ⟨succ, ans⟩ | _ <;> first
      | (cases succ <;> simp [AiRoutes.ask_question, hqe])
      | simp [AiRoutes.ask_question, hqe]
  · simp only [AiRoutes.get_enhanced_fallback_response]
    simp only [List.isEmpty_nil, Bool.not_true]
    split_ifs <;> simp_all

/-- C5 witness: with a configured token and a raising provider call, the
route answers the canned response for the concrete question `hello`. -/
theorem ask_route_absorbs_failure_witness :
    AiRoutes.ask_question "hello".toList [] true .raises
      = .answered
          (AiRoutes.get_enhanced_fallback_response "hello".toList []) true :=
  (ask_route_absorbs_failure "hello".toList [] .raises (by decide)
    (Or.inl rfl)).1

/-- C8: with no token configured, a generate-questions request for topic
`Thermodynamics` with three questions returns exactly the first three
template questions, cycling through the template list in order (index
i modulo the list length), each typed as its template dictates. -/
theorem generate_fallback_thermodynamics (call : AiRoutes.QGenOutcome) :
    AiRoutes.generate_quiz_questions "Thermodynamics".toList (some 3) false
        call
      = .ok (.fromTemplates (AiRoutes.get_fallback_quiz_questions
          "Thermodynamics".toList 3)) true
    ∧ (AiRoutes.get_fallback_quiz_questions "Thermodynamics".toList 3).length
        = 3
    ∧ (∀ i, i < 3 →
        (AiRoutes.get_fallback_quiz_questions
            "Thermodynamics".toList 3).getD i default
          = (AiRoutes.question_templates "Thermodynamics".toList).getD
              (i % (AiRoutes.question_templates
                  "Thermodynamics".toList).length) default)
    ∧ (AiRoutes.get_fallback_quiz_questions "Thermodynamics".toList 3).map
          AiRoutes.FBQuestion.type
        = [.multiple_choice, .short_answer, .multiple_choice] :=
  ⟨rfl, by decide, by decide, by decide⟩

theorem get_fallback_length (topic : Str) (n : Nat) :
    (AiRoutes.get_fallback_quiz_questions topic n).length = n := by
  simp [AiRoutes.get_fallback_quiz_questions]

/-- C10 counterexample: with a configured token and a provider success
carrying eleven questions, the route returns the eleven questions even
though the requested count 0 was out of range, so the number of
questions produced is not always between 1 and 10. -/
theorem provider_count_unbounded :
    AiRoutes.generate_quiz_questions "Physics".toList (some 0) true
        (.outcome true elevenAiQs)
      = .ok (.fromProvider elevenAiQs) true
    ∧ AiRoutes.questionCount (.fromProvider elevenAiQs) = 11
    ∧ ¬(1 ≤ (0:Int) ∧ (0:Int) ≤ 10)
    ∧ ¬(AiRoutes.questionCount (.fromProvider elevenAiQs) ≤ 10) :=
  ⟨rfl, by decide, by decide, by decide⟩

/-- C10 amended: a numQuestions value outside 1..10 is silently replaced
by 5 rather than rejected, and on every fallback path (provider failure
or raise) the route returns template questions whose count equals the
effective value and lies between 1 and 10; the provider-success path is
not so constrained. -/
theorem generate_num_questions_clamp (topic : Str) (numQ : Option Int)
    (n : Int) (call : AiRoutes.QGenOutcome) (htopic : topic ≠ []) :
    (¬(1 ≤ n ∧ n ≤ 10) → AiRoutes.effectiveNumQuestions (some n) = 5)
    ∧ (1 ≤ AiRoutes.effectiveNumQuestions numQ
        ∧ AiRoutes.effectiveNumQuestions numQ ≤ 10)
    ∧ ((call = .raises ∨ ∃ qs, call = .outcome false qs) →
        AiRoutes.generate_quiz_questions topic numQ true call
            = .ok (.fromTemplates (AiRoutes.get_fallback_quiz_questions topic
                (AiRoutes.effectiveNumQuestions numQ).toNat)) true
          ∧ 1 ≤ (AiRoutes.get_fallback_quiz_questions topic
                (AiRoutes.effectiveNumQuestions numQ).toNat).length
          ∧ (AiRoutes.get_fallback_quiz_questions topic
                (AiRoutes.effectiveNumQuestions numQ).toNat).length ≤ 10) := by
  have hte : topic.isEmpty = false := by
    cases topic with
    | nil => exact absurd rfl htopic
    | cons a l => rfl
  have hbounds : 1 ≤ AiRoutes.effectiveNumQuestions numQ
      ∧ AiRoutes.effectiveNumQuestions numQ ≤ 10 := by
    rw [AiRoutes.effectiveNumQuestions]
    split_ifs with h
    · omega
    · omega
  refine ⟨?_, hbounds, ?_⟩
  · intro h
    rw [AiRoutes.effectiveNumQuestions]
    simp only [Option.getD_some]
    rw [if_pos h]
  · intro hf
    have hlen : (AiRoutes.get_fallback_quiz_questions topic
        (AiRoutes.effectiveNumQuestions numQ).toNat).length
          = (AiRoutes.effectiveNumQuestions numQ).toNat :=
      get_fallback_length _ _
    have hne : (AiRoutes.get_fallback_quiz_questions topic
        (AiRoutes.effectiveNumQuestions numQ).toNat).length ≠ 0 := by
      rw [hlen]
      omega
    refine ⟨?_, by omega, by omega⟩
    rcases hf with h | ⟨qs, h⟩ <;> subst h <;>
      simp [AiRoutes.generate_quiz_questions, hte, AiRoutes.questionCount,
        hne]

/-- C10 witness: a request for 99 questions is clamped to 5 and the
failing-provider path produces the five template questions. -/
theorem generate_num_questions_clamp_witness :
    AiRoutes.effectiveNumQuestions (some 99) = 5
    ∧ AiRoutes.generate_quiz_questions "Physics".toList (some 99) true
        .raises
      = .ok (.fromTemplates (AiRoutes.get_fallback_quiz_questions
          "Physics".toList
          (AiRoutes.effectiveNumQuestions (some 99)).toNat)) true :=
  ⟨(generate_num_questions_clamp "Physics".toList (some 99) 99 .raises
      (by decide)).1 (by decide),
    ((generate_num_questions_clamp "Physics".toList (some 99) 99 .raises
      (by decide)).2.2 (Or.inl rfl)).1⟩

end AruAcademy
